import Mathlib

/-!
Verification of the bollard network module (src/src/network.rs): a shallow
embedding of its option structs, query encoding, request building,
serde-derived JSON codecs, and the Docker / DockerChain operations.
Rust HashMap values are embedded as association lists holding the entries in
the map iteration order; Rust `&str` and `String` both become Lean `String`.
-/

namespace BollardNet

/-- JSON values, the wire format produced and consumed by the serde codecs
derived in network.rs. -/
inductive Json where
  | null : Json
  | bool : Bool → Json
  | num : Int → Json
  | str : String → Json
  | arr : List Json → Json
  | obj : List (String × Json) → Json

/-- HTTP methods used by the network endpoints (hyper::Method). -/
inductive Method where
  | get : Method
  | post : Method
  | delete : Method
deriving DecidableEq

/-- Request descriptor: method, path, ordered query pairs, optional JSON body.
This is the output of request building (spec section 3). -/
structure RequestDescriptor where
  method : Method
  path : String
  query : List (String × String)
  body : Option Json

/-- Raw HTTP response: status code and JSON body, the input of response
decoding (spec section 4.4). -/
structure HttpResponse where
  status : Nat
  body : Json

/-- Modelled from the spec: the error taxonomy of section 7. The concrete
error type (failure::Error plus the API error kinds) lives in the missing
`docker` module; only the distinction between the kinds matters here. -/
inductive DockerError where
  | encodingError : String → DockerError
  | apiError : Nat → String → DockerError
  | decodeError : String → DockerError

/-- Modelled from the spec: the canonical boolean wire token `TRUE_STR` is a
constant of the missing `docker` module (imported by network.rs); end-to-end
scenario 3 of the spec (`verbose=true`) fixes it to "true". -/
def TRUE_STR : String := "true"

/-- Modelled from the spec: the canonical boolean wire token `FALSE_STR` is a
constant of the missing `docker` module (imported by network.rs). -/
def FALSE_STR : String := "false"

/-- Rust `bool::to_string()`, the language-default boolean string form. -/
def boolToString (b : Bool) : String := if b then "true" else "false"

/-- IPAMConfig from network.rs: four optional fields. `aux_address` is an
optional HashMap, embedded as an association list. -/
structure IPAMConfig (T : Type) where
  subnet : Option T
  ip_range : Option T
  gateway : Option T
  aux_address : Option (List (T × T))

/-- IPAM from network.rs: driver, config vector and options map. -/
structure IPAM (T : Type) where
  driver : T
  config : List (IPAMConfig T)
  options : List (T × T)

/-- CreateNetworkOptions from network.rs, fields in declaration order.
The `options` and `labels` HashMap fields are embedded as association
lists holding the entries in the map iteration order. -/
structure CreateNetworkOptions (T : Type) where
  name : T
  check_duplicate : Bool
  driver : T
  internal : Bool
  attachable : Bool
  ingress : Bool
  ipam : IPAM T
  enable_ipv6 : Bool
  options : List (T × T)
  labels : List (T × T)

/-- The derived Default value of IPAM (empty driver, no config, no options). -/
def IPAM.rustDefault : IPAM String :=
  { driver := "", config := [], options := [] }

/-- The derived Default value of CreateNetworkOptions: empty strings, false
booleans, default IPAM, empty maps. -/
def CreateNetworkOptions.rustDefault : CreateNetworkOptions String :=
  { name := ""
    check_duplicate := false
    driver := ""
    internal := false
    attachable := false
    ingress := false
    ipam := IPAM.rustDefault
    enable_ipv6 := false
    options := []
    labels := [] }

/-- InspectNetworkOptions from network.rs: a boolean `verbose` and a
string-like `scope`. Neither field has an Option type. -/
structure InspectNetworkOptions (T : Type) where
  verbose : Bool
  scope : T

/-- The derived Default value of InspectNetworkOptions. -/
def InspectNetworkOptions.rustDefault : InspectNetworkOptions String :=
  { verbose := false, scope := "" }

/-- InspectNetworkQueryParams::into_array for InspectNetworkOptions of `&'a str`
(network.rs lines 117 to 124): always Ok, verbose encoded with the TRUE_STR
and FALSE_STR tokens, then scope, in declaration order. -/
def InspectNetworkOptions.into_array_ref (o : InspectNetworkOptions String) :
    Except String (List (String × String)) :=
  .ok [("verbose", if o.verbose then TRUE_STR else FALSE_STR), ("scope", o.scope)]

/-- InspectNetworkQueryParams::into_array for InspectNetworkOptions of String
(network.rs lines 126 to 133): always Ok, verbose encoded with
`self.verbose.to_string()`, then scope, in declaration order. -/
def InspectNetworkOptions.into_array_string (o : InspectNetworkOptions String) :
    Except String (List (String × String)) :=
  .ok [("verbose", boolToString o.verbose), ("scope", o.scope)]

/-- Serde serialization of a HashMap of strings: a JSON object holding the
entries in the map iteration order. -/
def serializeStringMap (m : List (String × String)) : Json :=
  .obj (m.map fun kv => (kv.1, .str kv.2))

/-- Serde serialization of an Option of string: None becomes null. -/
def serializeOptString : Option String → Json
  | none => .null
  | some s => .str s

/-- Serde serialization of IPAMConfig (PascalCase keys, `ip_range` renamed
IPRange), fields in declaration order. -/
def IPAMConfig.serialize (c : IPAMConfig String) : Json :=
  .obj [("Subnet", serializeOptString c.subnet),
        ("IPRange", serializeOptString c.ip_range),
        ("Gateway", serializeOptString c.gateway),
        ("AuxAddress", match c.aux_address with
          | none => .null
          | some m => serializeStringMap m)]

/-- Serde serialization of IPAM (PascalCase keys), fields in declaration
order. -/
def IPAM.serialize (i : IPAM String) : Json :=
  .obj [("Driver", .str i.driver),
        ("Config", .arr (i.config.map IPAMConfig.serialize)),
        ("Options", serializeStringMap i.options)]

/-- Serde serialization of CreateNetworkOptions (PascalCase keys, `ipam`
renamed IPAM, `enable_ipv6` renamed EnableIPv6), fields in declaration
order. HashMap fields are serialized in the map iteration order. -/
def CreateNetworkOptions.serialize (c : CreateNetworkOptions String) : Json :=
  .obj [("Name", .str c.name),
        ("CheckDuplicate", .bool c.check_duplicate),
        ("Driver", .str c.driver),
        ("Internal", .bool c.internal),
        ("Attachable", .bool c.attachable),
        ("Ingress", .bool c.ingress),
        ("IPAM", c.ipam.serialize),
        ("EnableIPv6", .bool c.enable_ipv6),
        ("Options", serializeStringMap c.options),
        ("Labels", serializeStringMap c.labels)]

/-- CreateNetworkResults from network.rs. -/
structure CreateNetworkResults where
  id : String
  warning : String

/-- InspectNetworkResultsContainers from network.rs. -/
structure InspectNetworkResultsContainers where
  name : String
  endpoint_id : String
  mac_address : String
  ipv4_address : String
  ipv6_address : String

/-- InspectNetworkResults from network.rs, fields in declaration order. -/
structure InspectNetworkResults where
  name : String
  id : String
  created : String
  scope : String
  driver : String
  enable_ipv6 : Bool
  ipam : IPAM String
  internal : Bool
  attachable : Bool
  ingress : Bool
  containers : List (String × InspectNetworkResultsContainers)
  options : List (String × String)
  labels : List (String × String)
  config_from : List (String × String)
  config_only : Bool

/-- Serde deserialization of a string. -/
def decodeString : Json → Except String String
  | .str s => .ok s
  | _ => .error "invalid type: expected a string"

/-- Serde deserialization of a boolean. -/
def decodeBool : Json → Except String Bool
  | .bool b => .ok b
  | _ => .error "invalid type: expected a boolean"

/-- Serde deserialization of a HashMap: a JSON object whose values decode
elementwise. -/
def decodeObjMap {α : Type} (dec : Json → Except String α) :
    Json → Except String (List (String × α))
  | .obj fields => fields.mapM fun kv => do
      let a ← dec kv.2
      .ok (kv.1, a)
  | _ => .error "invalid type: expected a map"

/-- Serde deserialization of a HashMap of strings. -/
def decodeStringMap : Json → Except String (List (String × String)) :=
  decodeObjMap decodeString

/-- Serde deserialization of a vector: a JSON array whose elements decode
elementwise. -/
def decodeArrOf {α : Type} (dec : Json → Except String α) :
    Json → Except String (List α)
  | .arr xs => xs.mapM dec
  | _ => .error "invalid type: expected an array"

/-- Serde deserialization of an Option: null becomes None, anything else
decodes to Some. -/
def decodeOpt {α : Type} (dec : Json → Except String α) :
    Json → Except String (Option α)
  | .null => .ok none
  | j => do
      let a ← dec j
      .ok (some a)

/-- Serde fills one field slot: a slot already filled is a duplicate-field
error, otherwise the value is decoded. -/
def setOnce {β : Type} (slot : Option β) (dec : Json → Except String β)
    (v : Json) : Except String β :=
  match slot with
  | some _ => .error "duplicate field"
  | none => dec v

/-- The field loop of a serde struct deserializer with deny_unknown_fields:
walk the object entries in order feeding each into `step` (which rejects
unknown keys), then `finish` checks that every required slot was filled. -/
def runFieldLoop {σ α : Type} (step : σ → String → Json → Except String σ)
    (init : σ) (finish : σ → Except String α) (j : Json) :
    Except String α :=
  match j with
  | .obj fields => do
      let st ← fields.foldlM (fun s kv => step s kv.1 kv.2) init
      finish st
  | _ => .error "invalid type: expected an object"

/-- Slots for the CreateNetworkResults deserializer. -/
structure CRNAcc where
  id : Option String := none
  warning : Option String := none

/-- The declared wire keys of CreateNetworkResults (PascalCase). -/
def crnKeys : List String := ["Id", "Warning"]

/-- One field step of the CreateNetworkResults deserializer
(deny_unknown_fields): any key other than Id or Warning is an error. -/
def crnStep (st : CRNAcc) (k : String) (v : Json) : Except String CRNAcc :=
  if k = "Id" then do
    let x ← setOnce st.id decodeString v
    .ok { st with id := some x }
  else if k = "Warning" then do
    let x ← setOnce st.warning decodeString v
    .ok { st with warning := some x }
  else .error ("unknown field " ++ k)

/-- Final check of the CreateNetworkResults deserializer: both fields must be
present. -/
def crnFinish (st : CRNAcc) : Except String CreateNetworkResults :=
  match st.id, st.warning with
  | some i, some w => .ok { id := i, warning := w }
  | _, _ => .error "missing field"

/-- Serde deserialization of CreateNetworkResults (PascalCase keys,
deny_unknown_fields). -/
def decodeCreateNetworkResults : Json → Except String CreateNetworkResults :=
  runFieldLoop crnStep {} crnFinish

/-- Slots for the IPAMConfig deserializer. -/
structure IPAMConfigAcc where
  subnet : Option (Option String) := none
  ip_range : Option (Option String) := none
  gateway : Option (Option String) := none
  aux_address : Option (Option (List (String × String))) := none

/-- The declared wire keys of IPAMConfig (PascalCase, IPRange renamed). -/
def ipamConfigKeys : List String := ["Subnet", "IPRange", "Gateway", "AuxAddress"]

/-- One field step of the IPAMConfig deserializer (deny_unknown_fields). -/
def ipamConfigStep (st : IPAMConfigAcc) (k : String) (v : Json) :
    Except String IPAMConfigAcc :=
  if k = "Subnet" then do
    let x ← setOnce st.subnet (decodeOpt decodeString) v
    .ok { st with subnet := some x }
  else if k = "IPRange" then do
    let x ← setOnce st.ip_range (decodeOpt decodeString) v
    .ok { st with ip_range := some x }
  else if k = "Gateway" then do
    let x ← setOnce st.gateway (decodeOpt decodeString) v
    .ok { st with gateway := some x }
  else if k = "AuxAddress" then do
    let x ← setOnce st.aux_address (decodeOpt decodeStringMap) v
    .ok { st with aux_address := some x }
  else .error ("unknown field " ++ k)

/-- Final check of the IPAMConfig deserializer: every field has an Option
type, so a missing field defaults to None. -/
def ipamConfigFinish (st : IPAMConfigAcc) : Except String (IPAMConfig String) :=
  .ok { subnet := st.subnet.getD none
        ip_range := st.ip_range.getD none
        gateway := st.gateway.getD none
        aux_address := st.aux_address.getD none }

/-- Serde deserialization of IPAMConfig (PascalCase keys,
deny_unknown_fields). -/
def decodeIPAMConfig : Json → Except String (IPAMConfig String) :=
  runFieldLoop ipamConfigStep {} ipamConfigFinish

/-- Slots for the IPAM deserializer. -/
structure IPAMAcc where
  driver : Option String := none
  config : Option (List (IPAMConfig String)) := none
  options : Option (List (String × String)) := none

/-- The declared wire keys of IPAM (PascalCase). -/
def ipamKeys : List String := ["Driver", "Config", "Options"]

/-- One field step of the IPAM deserializer (deny_unknown_fields). -/
def ipamStep (st : IPAMAcc) (k : String) (v : Json) : Except String IPAMAcc :=
  if k = "Driver" then do
    let x ← setOnce st.driver decodeString v
    .ok { st with driver := some x }
  else if k = "Config" then do
    let x ← setOnce st.config (decodeArrOf decodeIPAMConfig) v
    .ok { st with config := some x }
  else if k = "Options" then do
    let x ← setOnce st.options decodeStringMap v
    .ok { st with options := some x }
  else .error ("unknown field " ++ k)

/-- Final check of the IPAM deserializer: all three fields required. -/
def ipamFinish (st : IPAMAcc) : Except String (IPAM String) :=
  match st.driver, st.config, st.options with
  | some d, some c, some o => .ok { driver := d, config := c, options := o }
  | _, _, _ => .error "missing field"

/-- Serde deserialization of IPAM (PascalCase keys, deny_unknown_fields). -/
def decodeIPAM : Json → Except String (IPAM String) :=
  runFieldLoop ipamStep {} ipamFinish

/-- Slots for the InspectNetworkResultsContainers deserializer. -/
structure ContainersAcc where
  name : Option String := none
  endpoint_id : Option String := none
  mac_address : Option String := none
  ipv4_address : Option String := none
  ipv6_address : Option String := none

/-- The declared wire keys of InspectNetworkResultsContainers (PascalCase,
EndpointID, IPv4Address and IPv6Address renamed). -/
def containersKeys : List String :=
  ["Name", "EndpointID", "MacAddress", "IPv4Address", "IPv6Address"]

/-- One field step of the InspectNetworkResultsContainers deserializer
(deny_unknown_fields). -/
def containersStep (st : ContainersAcc) (k : String) (v : Json) :
    Except String ContainersAcc :=
  if k = "Name" then do
    let x ← setOnce st.name decodeString v
    .ok { st with name := some x }
  else if k = "EndpointID" then do
    let x ← setOnce st.endpoint_id decodeString v
    .ok { st with endpoint_id := some x }
  else if k = "MacAddress" then do
    let x ← setOnce st.mac_address decodeString v
    .ok { st with mac_address := some x }
  else if k = "IPv4Address" then do
    let x ← setOnce st.ipv4_address decodeString v
    .ok { st with ipv4_address := some x }
  else if k = "IPv6Address" then do
    let x ← setOnce st.ipv6_address decodeString v
    .ok { st with ipv6_address := some x }
  else .error ("unknown field " ++ k)

/-- Final check of the InspectNetworkResultsContainers deserializer: all five
fields required. -/
def containersFinish (st : ContainersAcc) :
    Except String InspectNetworkResultsContainers :=
  match st.name, st.endpoint_id, st.mac_address, st.ipv4_address,
      st.ipv6_address with
  | some n, some e, some m, some i4, some i6 =>
      .ok { name := n, endpoint_id := e, mac_address := m,
            ipv4_address := i4, ipv6_address := i6 }
  | _, _, _, _, _ => .error "missing field"

/-- Serde deserialization of InspectNetworkResultsContainers (PascalCase
keys, deny_unknown_fields). -/
def decodeContainers : Json → Except String InspectNetworkResultsContainers :=
  runFieldLoop containersStep {} containersFinish

/-- Slots for the InspectNetworkResults deserializer. -/
structure INRAcc where
  name : Option String := none
  id : Option String := none
  created : Option String := none
  scope : Option String := none
  driver : Option String := none
  enable_ipv6 : Option Bool := none
  ipam : Option (IPAM String) := none
  internal : Option Bool := none
  attachable : Option Bool := none
  ingress : Option Bool := none
  containers : Option (List (String × InspectNetworkResultsContainers)) := none
  options : Option (List (String × String)) := none
  labels : Option (List (String × String)) := none
  config_from : Option (List (String × String)) := none
  config_only : Option Bool := none

/-- The declared wire keys of InspectNetworkResults (PascalCase, EnableIPv6
and IPAM renamed). -/
def inrKeys : List String :=
  ["Name", "Id", "Created", "Scope", "Driver", "EnableIPv6", "IPAM",
   "Internal", "Attachable", "Ingress", "Containers", "Options", "Labels",
   "ConfigFrom", "ConfigOnly"]

/-- One field step of the InspectNetworkResults deserializer
(deny_unknown_fields): any key outside the fifteen declared wire keys is an
error. -/
def inrStep (st : INRAcc) (k : String) (v : Json) : Except String INRAcc :=
  if k = "Name" then do
    let x ← setOnce st.name decodeString v
    .ok { st with name := some x }
  else if k = "Id" then do
    let x ← setOnce st.id decodeString v
    .ok { st with id := some x }
  else if k = "Created" then do
    let x ← setOnce st.created decodeString v
    .ok { st with created := some x }
  else if k = "Scope" then do
    let x ← setOnce st.scope decodeString v
    .ok { st with scope := some x }
  else if k = "Driver" then do
    let x ← setOnce st.driver decodeString v
    .ok { st with driver := some x }
  else if k = "EnableIPv6" then do
    let x ← setOnce st.enable_ipv6 decodeBool v
    .ok { st with enable_ipv6 := some x }
  else if k = "IPAM" then do
    let x ← setOnce st.ipam decodeIPAM v
    .ok { st with ipam := some x }
  else if k = "Internal" then do
    let x ← setOnce st.internal decodeBool v
    .ok { st with internal := some x }
  else if k = "Attachable" then do
    let x ← setOnce st.attachable decodeBool v
    .ok { st with attachable := some x }
  else if k = "Ingress" then do
    let x ← setOnce st.ingress decodeBool v
    .ok { st with ingress := some x }
  else if k = "Containers" then do
    let x ← setOnce st.containers (decodeObjMap decodeContainers) v
    .ok { st with containers := some x }
  else if k = "Options" then do
    let x ← setOnce st.options decodeStringMap v
    .ok { st with options := some x }
  else if k = "Labels" then do
    let x ← setOnce st.labels decodeStringMap v
    .ok { st with labels := some x }
  else if k = "ConfigFrom" then do
    let x ← setOnce st.config_from decodeStringMap v
    .ok { st with config_from := some x }
  else if k = "ConfigOnly" then do
    let x ← setOnce st.config_only decodeBool v
    .ok { st with config_only := some x }
  else .error ("unknown field " ++ k)

/-- Final check of the InspectNetworkResults deserializer: all fifteen fields
required. -/
def inrFinish (st : INRAcc) : Except String InspectNetworkResults :=
  match st.name, st.id, st.created, st.scope, st.driver, st.enable_ipv6,
      st.ipam, st.internal, st.attachable, st.ingress, st.containers,
      st.options, st.labels, st.config_from, st.config_only with
  | some n, some i, some cr, some sc, some dr, some e6, some ip, some it,
      some at_, some ig, some co, some op, some la, some cf, some cox =>
      .ok { name := n, id := i, created := cr, scope := sc, driver := dr,
            enable_ipv6 := e6, ipam := ip, internal := it, attachable := at_,
            ingress := ig, containers := co, options := op, labels := la,
            config_from := cf, config_only := cox }
  | _, _, _, _, _, _, _, _, _, _, _, _, _, _, _ => .error "missing field"

/-- Serde deserialization of InspectNetworkResults (PascalCase keys,
deny_unknown_fields). -/
def decodeInspectNetworkResults : Json → Except String InspectNetworkResults :=
  runFieldLoop inrStep {} inrFinish

/-- Modelled from the spec: `Docker::transpose_option` lives in the missing
`docker` module; its use at network.rs line 309 requires the standard
transposition of an optional fallible value. -/
def transpose_option {ε α : Type} : Option (Except ε α) → Except ε (Option α)
  | none => .ok none
  | some (.ok a) => .ok (some a)
  | some (.error e) => .error e

/-- Modelled from the spec: `Docker::build_request` lives in the missing
`docker` module. Per spec section 4.3 it composes method, path, query pairs
and body into one request descriptor; an absent query yields no pairs, and a
failed query encoding propagates as an error. -/
def build_request (method : Method) (path : String)
    (query : Except String (Option (List (String × String))))
    (body : Option Json) : Except String RequestDescriptor := do
  let q ← query
  .ok { method := method, path := path, query := q.getD [], body := body }

/-- Modelled from the spec: `Docker::serialize_payload` lives in the missing
`docker` module. Per spec section 4.2 it serializes the body value for
transmission; for these JSON-representable option structs it cannot fail. -/
def serialize_payload (config : Option (CreateNetworkOptions String)) :
    Option Json :=
  config.map CreateNetworkOptions.serialize

/-- The request built by Docker::create_network (network.rs lines 210 to
227): POST to the literal path "/networks/create", no query pairs, body the
serialized options struct. -/
def createNetworkRequest (config : CreateNetworkOptions String) :
    Except String RequestDescriptor :=
  build_request .post "/networks/create" (.ok none) (serialize_payload (some config))

/-- The request built by Docker::remove_network (network.rs lines 249 to
261): DELETE to `format!("/networks/{}", network_name)`, no query pairs,
empty body. -/
def removeNetworkRequest (network_name : String) :
    Except String RequestDescriptor :=
  build_request .delete ("/networks/" ++ network_name) (.ok none) none

/-- The request built by Docker::inspect_network (network.rs lines 293 to
314): GET to `format!("/networks/{}", network_name)`, query pairs from the
optional options value through the generic into_array implementation, empty
body. -/
def inspectNetworkRequest {T : Type}
    (into_array : T → Except String (List (String × String)))
    (network_name : String) (options : Option T) :
    Except String RequestDescriptor :=
  build_request .get ("/networks/" ++ network_name)
    (transpose_option (options.map into_array)) none

/-- Modelled from the spec: the error-status decoding of section 4.4 step 1
(part of the missing `docker` module): parse a structured message field,
else fall back to a generic error carrying the raw status. -/
def decodeApiError (r : HttpResponse) : DockerError :=
  match r.body with
  | .obj fields =>
      match fields.lookup "message" with
      | some (.str m) => .apiError r.status m
      | _ => .apiError r.status "unrecognized error body"
  | _ => .apiError r.status "unrecognized error body"

/-- Modelled from the spec: `Docker::process_into_value` lives in the missing
`docker` module. Per spec section 4.4: an error status yields an ApiError; a
2xx status decodes the body against the closed schema, a mismatch being a
DecodeError. -/
def process_into_value {α : Type} (dec : Json → Except String α)
    (r : HttpResponse) : Except DockerError α :=
  if 200 ≤ r.status ∧ r.status ≤ 299 then
    match dec r.body with
    | .ok a => .ok a
    | .error m => .error (.decodeError m)
  else .error (decodeApiError r)

/-- Modelled from the spec: `Docker::process_into_unit` lives in the missing
`docker` module. Per spec section 4.4 step 3: any 2xx status is unit
success, whatever the body holds; an error status yields an ApiError. -/
def process_into_unit (r : HttpResponse) : Except DockerError Unit :=
  if 200 ≤ r.status ∧ r.status ≤ 299 then .ok ()
  else .error (decodeApiError r)

/-- The Docker client session: the spec section 6 collaborator contract is a
transport taking a request descriptor to a raw response. -/
structure Docker where
  transport : RequestDescriptor → HttpResponse

/-- Docker::create_network (network.rs lines 210 to 227): build the request,
send it, decode the typed CreateNetworkResults. -/
def Docker.create_network (d : Docker) (config : CreateNetworkOptions String) :
    Except DockerError CreateNetworkResults :=
  match createNetworkRequest config with
  | .error e => .error (.encodingError e)
  | .ok req => process_into_value decodeCreateNetworkResults (d.transport req)

/-- Docker::remove_network (network.rs lines 249 to 261): build the request,
send it, decode to unit. -/
def Docker.remove_network (d : Docker) (network_name : String) :
    Except DockerError Unit :=
  match removeNetworkRequest network_name with
  | .error e => .error (.encodingError e)
  | .ok req => process_into_unit (d.transport req)

/-- Docker::inspect_network (network.rs lines 293 to 314): build the request
with the generic query encoding, send it, decode the typed
InspectNetworkResults. -/
def Docker.inspect_network {T : Type}
    (into_array : T → Except String (List (String × String)))
    (d : Docker) (network_name : String) (options : Option T) :
    Except DockerError InspectNetworkResults :=
  match inspectNetworkRequest into_array network_name options with
  | .error e => .error (.encodingError e)
  | .ok req => process_into_value decodeInspectNetworkResults (d.transport req)

/-- DockerChain (network.rs lines 317 to 443): a wrapper owning the inner
Docker session. -/
structure DockerChain where
  inner : Docker

/-- DockerChain::create_network (network.rs lines 354 to 364): call the
inner session and pair the result with the chain. -/
def DockerChain.create_network (c : DockerChain)
    (config : CreateNetworkOptions String) :
    Except DockerError (DockerChain × CreateNetworkResults) :=
  (c.inner.create_network config).map fun result => (c, result)

/-- DockerChain::remove_network (network.rs lines 389 to 396): call the
inner session and pair the result with the chain. -/
def DockerChain.remove_network (c : DockerChain) (network_name : String) :
    Except DockerError (DockerChain × Unit) :=
  (c.inner.remove_network network_name).map fun result => (c, result)

/-- DockerChain::inspect_network (network.rs lines 429 to 442): call the
inner session and pair the result with the chain. -/
def DockerChain.inspect_network {T : Type}
    (into_array : T → Except String (List (String × String)))
    (c : DockerChain) (network_name : String) (options : Option T) :
    Except DockerError (DockerChain × InspectNetworkResults) :=
  (Docker.inspect_network into_array c.inner network_name options).map
    fun result => (c, result)

/-- Structural equality of create-network option values in the sense of the
spec section on determinism: every field equal, with the HashMap-valued
fields (`options`, `labels` and the IPAM `options`) compared as unordered
key/value maps, the way Rust HashMap equality compares them. -/
def CreateNetworkOptions.structEq (x y : CreateNetworkOptions String) : Prop :=
  x.name = y.name ∧ x.check_duplicate = y.check_duplicate ∧
  x.driver = y.driver ∧ x.internal = y.internal ∧
  x.attachable = y.attachable ∧ x.ingress = y.ingress ∧
  x.ipam.driver = y.ipam.driver ∧ x.ipam.config = y.ipam.config ∧
  List.Perm x.ipam.options y.ipam.options ∧
  x.enable_ipv6 = y.enable_ipv6 ∧
  List.Perm x.options y.options ∧
  List.Perm x.labels y.labels

/-- Concrete option values differing only in the iteration order of the
`labels` HashMap: first entry list. -/
def cfgLabelsAB : CreateNetworkOptions String :=
  { CreateNetworkOptions.rustDefault with labels := [("a", "1"), ("b", "2")] }

/-- Concrete option values differing only in the iteration order of the
`labels` HashMap: second entry list, a permutation of the first. -/
def cfgLabelsBA : CreateNetworkOptions String :=
  { CreateNetworkOptions.rustDefault with labels := [("b", "2"), ("a", "1")] }

/-- Inversion of a successful Except bind: the first stage succeeded and the
continuation succeeded on its value. -/
theorem exceptBind_ok {ε α β : Type} {e : Except ε α} {f : α → Except ε β}
    {b : β} (h : (e >>= f) = .ok b) : ∃ a, e = .ok a ∧ f a = .ok b := by
  cases e with
  | error err => simp [Bind.bind, Except.bind] at h
  | ok a => exact ⟨a, rfl, by simpa [Bind.bind, Except.bind] using h⟩

/-- If every successful step certifies its key as known, a successful field
fold certifies every key of the object as known. -/
theorem foldTraceKnown {σ : Type} (step : σ → String → Json → Except String σ)
    (known : List String)
    (hstep : ∀ s k v s', step s k v = .ok s' → k ∈ known) :
    ∀ (fields : List (String × Json)) (s r : σ),
      (fields.foldlM (fun a kv => step a kv.1 kv.2) s) = .ok r →
      ∀ kv ∈ fields, kv.1 ∈ known := by
  intro fields
  induction fields with
  | nil => intro s r _ kv hmem; cases hmem
  | cons hd tl ih =>
      intro s r h kv hmem
      rw [List.foldlM_cons] at h
      obtain ⟨s1, hs1, hrest⟩ := exceptBind_ok h
      cases hmem with
      | head => exact hstep s hd.1 hd.2 s1 hs1
      | tail _ hmem2 => exact ih s1 r hrest kv hmem2

/-- A field loop whose step rejects unknown keys fails on any object holding
a key outside the known list. -/
theorem runFieldLoop_unknown {σ α : Type}
    (step : σ → String → Json → Except String σ) (init : σ)
    (finish : σ → Except String α) (known : List String)
    (hstep : ∀ s k v s', step s k v = .ok s' → k ∈ known)
    (fields : List (String × Json)) (k : String) (v : Json)
    (hmem : (k, v) ∈ fields) (hk : k ∉ known) :
    ∃ e, runFieldLoop step init finish (.obj fields) = .error e := by
  cases hres : runFieldLoop step init finish (.obj fields) with
  | error e => exact ⟨e, rfl⟩
  | ok a =>
      exfalso
      simp only [runFieldLoop] at hres
      obtain ⟨st, hfold, _⟩ := exceptBind_ok hres
      exact hk (foldTraceKnown step known hstep fields init st hfold (k, v) hmem)

/-- Every key accepted by the CreateNetworkResults field step is declared. -/
theorem crnStep_known : ∀ s k v s', crnStep s k v = .ok s' → k ∈ crnKeys := by
  intro s k v s' h
  by_contra hk
  have hne : ∀ x : String, x ∈ crnKeys → ¬(k = x) := fun x hx he => hk (he ▸ hx)
  unfold crnStep at h
  rw [if_neg (hne "Id" (by decide)), if_neg (hne "Warning" (by decide))] at h
  exact Except.noConfusion h

/-- Every key accepted by the IPAMConfig field step is declared. -/
theorem ipamConfigStep_known :
    ∀ s k v s', ipamConfigStep s k v = .ok s' → k ∈ ipamConfigKeys := by
  intro s k v s' h
  by_contra hk
  have hne : ∀ x : String, x ∈ ipamConfigKeys → ¬(k = x) :=
    fun x hx he => hk (he ▸ hx)
  unfold ipamConfigStep at h
  rw [if_neg (hne "Subnet" (by decide)), if_neg (hne "IPRange" (by decide)),
    if_neg (hne "Gateway" (by decide)),
    if_neg (hne "AuxAddress" (by decide))] at h
  exact Except.noConfusion h

/-- Every key accepted by the IPAM field step is declared. -/
theorem ipamStep_known : ∀ s k v s', ipamStep s k v = .ok s' → k ∈ ipamKeys := by
  intro s k v s' h
  by_contra hk
  have hne : ∀ x : String, x ∈ ipamKeys → ¬(k = x) := fun x hx he => hk (he ▸ hx)
  unfold ipamStep at h
  rw [if_neg (hne "Driver" (by decide)), if_neg (hne "Config" (by decide)),
    if_neg (hne "Options" (by decide))] at h
  exact Except.noConfusion h

/-- Every key accepted by the InspectNetworkResultsContainers field step is
declared. -/
theorem containersStep_known :
    ∀ s k v s', containersStep s k v = .ok s' → k ∈ containersKeys := by
  intro s k v s' h
  by_contra hk
  have hne : ∀ x : String, x ∈ containersKeys → ¬(k = x) :=
    fun x hx he => hk (he ▸ hx)
  unfold containersStep at h
  rw [if_neg (hne "Name" (by decide)), if_neg (hne "EndpointID" (by decide)),
    if_neg (hne "MacAddress" (by decide)),
    if_neg (hne "IPv4Address" (by decide)),
    if_neg (hne "IPv6Address" (by decide))] at h
  exact Except.noConfusion h

/-- Every key accepted by the InspectNetworkResults field step is declared. -/
theorem inrStep_known : ∀ s k v s', inrStep s k v = .ok s' → k ∈ inrKeys := by
  intro s k v s' h
  by_contra hk
  have hne : ∀ x : String, x ∈ inrKeys → ¬(k = x) := fun x hx he => hk (he ▸ hx)
  unfold inrStep at h
  rw [if_neg (hne "Name" (by decide)), if_neg (hne "Id" (by decide)),
    if_neg (hne "Created" (by decide)), if_neg (hne "Scope" (by decide)),
    if_neg (hne "Driver" (by decide)), if_neg (hne "EnableIPv6" (by decide)),
    if_neg (hne "IPAM" (by decide)), if_neg (hne "Internal" (by decide)),
    if_neg (hne "Attachable" (by decide)), if_neg (hne "Ingress" (by decide)),
    if_neg (hne "Containers" (by decide)), if_neg (hne "Options" (by decide)),
    if_neg (hne "Labels" (by decide)), if_neg (hne "ConfigFrom" (by decide)),
    if_neg (hne "ConfigOnly" (by decide))] at h
  exact Except.noConfusion h

/-- Equation lemma: the request built by remove_network, for any name. -/
theorem removeNetworkRequest_eq (network_name : String) :
    removeNetworkRequest network_name =
      .ok { method := .delete, path := "/networks/" ++ network_name,
            query := [], body := none } := rfl

/-- Equation lemma: the request built by inspect_network when the caller
passes no options. -/
theorem inspectNetworkRequest_ref_none (network_name : String) :
    inspectNetworkRequest InspectNetworkOptions.into_array_ref
        network_name none =
      .ok { method := .get, path := "/networks/" ++ network_name,
            query := [], body := none } := rfl

/-- Equation lemma: the request built by inspect_network for an options
value, under the borrowed-string into_array implementation. -/
theorem inspectNetworkRequest_ref_some (network_name : String)
    (o : InspectNetworkOptions String) :
    inspectNetworkRequest InspectNetworkOptions.into_array_ref
        network_name (some o) =
      .ok { method := .get, path := "/networks/" ++ network_name,
            query := [("verbose", if o.verbose then TRUE_STR else FALSE_STR),
                      ("scope", o.scope)],
            body := none } := rfl

/-- Claim C1: for every boolean query field, both into_array implementations
(the borrowed-string one of network.rs lines 117 to 124 and the owned-string
one of lines 126 to 133) emit exactly the canonical TRUE_STR and FALSE_STR
token strings for the two possible boolean values. -/
theorem C1_canonical_bool_tokens :
    ∀ (scope : String),
      InspectNetworkOptions.into_array_ref { verbose := true, scope := scope } =
        .ok [("verbose", TRUE_STR), ("scope", scope)] ∧
      InspectNetworkOptions.into_array_ref { verbose := false, scope := scope } =
        .ok [("verbose", FALSE_STR), ("scope", scope)] ∧
      InspectNetworkOptions.into_array_string { verbose := true, scope := scope } =
        .ok [("verbose", TRUE_STR), ("scope", scope)] ∧
      InspectNetworkOptions.into_array_string { verbose := false, scope := scope } =
        .ok [("verbose", FALSE_STR), ("scope", scope)] :=
  fun _ => ⟨rfl, rfl, rfl, rfl⟩

/-- Claim C2, counterexample: for the default InspectNetworkOptions value
(the only inspect options value with every field at its absent default) the
query encoder does not produce the empty pair sequence; it emits both pairs
and encodes the default scope as the empty string. -/
theorem C2_counterexample_default_not_empty :
    InspectNetworkOptions.into_array_ref InspectNetworkOptions.rustDefault =
      .ok [("verbose", FALSE_STR), ("scope", "")] ∧
    InspectNetworkOptions.into_array_ref InspectNetworkOptions.rustDefault ≠
      .ok [] :=
  ⟨rfl, by
    simp [InspectNetworkOptions.into_array_ref,
      InspectNetworkOptions.rustDefault]⟩

/-- Claim C2 (amended): InspectNetworkOptions has no Option-typed fields, and
both into_array implementations always emit exactly the two pairs verbose
and scope, encoding a default scope as the empty string; the empty pair
sequence arises only when the caller passes None for the whole options
argument of inspect_network. -/
theorem C2_amended_always_two_pairs :
    ∀ (o : InspectNetworkOptions String) (network_name : String),
      InspectNetworkOptions.into_array_ref o =
        .ok [("verbose", if o.verbose then TRUE_STR else FALSE_STR),
             ("scope", o.scope)] ∧
      InspectNetworkOptions.into_array_string o =
        .ok [("verbose", boolToString o.verbose), ("scope", o.scope)] ∧
      inspectNetworkRequest InspectNetworkOptions.into_array_ref
          network_name none =
        .ok { method := .get, path := "/networks/" ++ network_name,
              query := [], body := none } :=
  fun _ _ => ⟨rfl, rfl, rfl⟩

/-- Claim C3, counterexample: remove_network interpolates the network
identifier into the path with plain format!, so the identifier "a/b"
containing the reserved character '/' yields the raw path "/networks/a/b"
and not the percent-encoded "/networks/a%2Fb". -/
theorem C3_counterexample_no_percent_encoding :
    removeNetworkRequest "a/b" =
      .ok { method := .delete, path := "/networks/a/b", query := [],
            body := none } ∧
    ("/networks/a/b" : String) ≠ "/networks/a%2Fb" :=
  ⟨rfl, by simp⟩

/-- Claim C3 (amended): request building substitutes the network identifier
into the "/networks/" prefix verbatim, with no percent-encoding of the
substituted segment; identifiers containing reserved characters appear
unchanged in the resulting path. -/
theorem C3_amended_verbatim_interpolation :
    ∀ (network_name : String) (opts : Option (InspectNetworkOptions String)),
      (∀ req, removeNetworkRequest network_name = .ok req →
        req.path = "/networks/" ++ network_name) ∧
      (∀ req, inspectNetworkRequest InspectNetworkOptions.into_array_ref
            network_name opts = .ok req →
        req.path = "/networks/" ++ network_name) := by
  intro network_name opts
  constructor
  · intro req h
    rw [removeNetworkRequest_eq] at h
    injection h with h2
    subst h2
    rfl
  · intro req h
    cases opts with
    | none =>
        rw [inspectNetworkRequest_ref_none] at h
        injection h with h2
        subst h2
        rfl
    | some o =>
        rw [inspectNetworkRequest_ref_some] at h
        injection h with h2
        subst h2
        rfl

/-- Witness for C3 (amended): at name "a/b" the built remove request is
concrete and its path is the raw interpolation. -/
theorem C3_amended_verbatim_interpolation_witness :
    ({ method := Method.delete, path := "/networks/a/b", query := [],
       body := none } : RequestDescriptor).path = "/networks/" ++ "a/b" :=
  (C3_amended_verbatim_interpolation "a/b" none).1
    { method := .delete, path := "/networks/a/b", query := [], body := none }
    rfl

/-- Claim C4: every typed-result decoder of the module (CreateNetworkResults,
InspectNetworkResults, and the nested IPAM, IPAMConfig and
InspectNetworkResultsContainers) rejects any JSON object carrying a field
outside the declared closed key set: decoding fails with an error and never
silently drops the unknown field. -/
theorem C4_unknown_field_rejected :
    (∀ (fields : List (String × Json)) (k : String) (v : Json),
        (k, v) ∈ fields → k ∉ crnKeys →
        ∃ e, decodeCreateNetworkResults (.obj fields) = .error e) ∧
    (∀ (fields : List (String × Json)) (k : String) (v : Json),
        (k, v) ∈ fields → k ∉ inrKeys →
        ∃ e, decodeInspectNetworkResults (.obj fields) = .error e) ∧
    (∀ (fields : List (String × Json)) (k : String) (v : Json),
        (k, v) ∈ fields → k ∉ ipamKeys →
        ∃ e, decodeIPAM (.obj fields) = .error e) ∧
    (∀ (fields : List (String × Json)) (k : String) (v : Json),
        (k, v) ∈ fields → k ∉ ipamConfigKeys →
        ∃ e, decodeIPAMConfig (.obj fields) = .error e) ∧
    (∀ (fields : List (String × Json)) (k : String) (v : Json),
        (k, v) ∈ fields → k ∉ containersKeys →
        ∃ e, decodeContainers (.obj fields) = .error e) :=
  ⟨fun fields k v hmem hk =>
      runFieldLoop_unknown crnStep {} crnFinish crnKeys crnStep_known
        fields k v hmem hk,
    fun fields k v hmem hk =>
      runFieldLoop_unknown inrStep {} inrFinish inrKeys inrStep_known
        fields k v hmem hk,
    fun fields k v hmem hk =>
      runFieldLoop_unknown ipamStep {} ipamFinish ipamKeys ipamStep_known
        fields k v hmem hk,
    fun fields k v hmem hk =>
      runFieldLoop_unknown ipamConfigStep {} ipamConfigFinish ipamConfigKeys
        ipamConfigStep_known fields k v hmem hk,
    fun fields k v hmem hk =>
      runFieldLoop_unknown containersStep {} containersFinish containersKeys
        containersStep_known fields k v hmem hk⟩

/-- Witness for C4: each decoder fails on a concrete object carrying the
undeclared key "Bogus". -/
theorem C4_unknown_field_rejected_witness :
    (∃ e, decodeCreateNetworkResults
        (.obj [("Id", .str "x"), ("Bogus", .null)]) = .error e) ∧
    (∃ e, decodeInspectNetworkResults (.obj [("Bogus", .null)]) = .error e) ∧
    (∃ e, decodeIPAM (.obj [("Bogus", .null)]) = .error e) ∧
    (∃ e, decodeIPAMConfig (.obj [("Bogus", .null)]) = .error e) ∧
    (∃ e, decodeContainers (.obj [("Bogus", .null)]) = .error e) :=
  ⟨C4_unknown_field_rejected.1 [("Id", .str "x"), ("Bogus", .null)]
      "Bogus" .null (by simp) (by decide),
    C4_unknown_field_rejected.2.1 [("Bogus", .null)] "Bogus" .null
      (by simp) (by decide),
    C4_unknown_field_rejected.2.2.1 [("Bogus", .null)] "Bogus" .null
      (by simp) (by decide),
    C4_unknown_field_rejected.2.2.2.1 [("Bogus", .null)] "Bogus" .null
      (by simp) (by decide),
    C4_unknown_field_rejected.2.2.2.2 [("Bogus", .null)] "Bogus" .null
      (by simp) (by decide)⟩

/-- Claim C5: for each of the three operations and every argument value, the
DockerChain version yields exactly the result of the wrapped Docker session
operation with its value paired with the chain handle, and propagates the
identical error otherwise; the wrapper adds no behaviour. -/
theorem C5_chain_pairs_inner_result :
    ∀ (c : DockerChain) (config : CreateNetworkOptions String)
      (network_name : String) (opts : Option (InspectNetworkOptions String)),
      (c.create_network config =
        match c.inner.create_network config with
        | .ok r => .ok (c, r)
        | .error e => .error e) ∧
      (c.remove_network network_name =
        match c.inner.remove_network network_name with
        | .ok r => .ok (c, r)
        | .error e => .error e) ∧
      (DockerChain.inspect_network InspectNetworkOptions.into_array_ref c
          network_name opts =
        match Docker.inspect_network InspectNetworkOptions.into_array_ref
            c.inner network_name opts with
        | .ok r => .ok (c, r)
        | .error e => .error e) := by
  intro c config network_name opts
  refine ⟨?_, ?_, ?_⟩
  · show (c.inner.create_network config).map _ = _
    cases c.inner.create_network config with
    | ok r => rfl
    | error e => rfl
  · show (c.inner.remove_network network_name).map _ = _
    cases c.inner.remove_network network_name with
    | ok r => rfl
    | error e => rfl
  · show (Docker.inspect_network InspectNetworkOptions.into_array_ref
        c.inner network_name opts).map _ = _
    cases Docker.inspect_network InspectNetworkOptions.into_array_ref
        c.inner network_name opts with
    | ok r => rfl
    | error e => rfl

/-- Claim C6: create_network with name "certs" and all other fields default
builds a POST to /networks/create whose body carries the PascalCase wire
keys, including Name "certs" and CheckDuplicate false; and the 201 response
body with Id "abc123" and empty Warning decodes to the typed result. -/
theorem C6_create_network_certs :
    createNetworkRequest { CreateNetworkOptions.rustDefault with name := "certs" } =
      .ok { method := .post, path := "/networks/create", query := [],
            body := some (.obj
              [("Name", .str "certs"), ("CheckDuplicate", .bool false),
               ("Driver", .str ""), ("Internal", .bool false),
               ("Attachable", .bool false), ("Ingress", .bool false),
               ("IPAM", .obj [("Driver", .str ""), ("Config", .arr []),
                              ("Options", .obj [])]),
               ("EnableIPv6", .bool false), ("Options", .obj []),
               ("Labels", .obj [])]) } ∧
    process_into_value decodeCreateNetworkResults
        { status := 201,
          body := .obj [("Id", .str "abc123"), ("Warning", .str "")] } =
      .ok { id := "abc123", warning := "" } :=
  ⟨rfl, rfl⟩

/-- Claim C7: inspect_network on "my_network_name" with verbose true and
scope "global" builds a GET to /networks/my_network_name whose query pairs
are exactly verbose=true then scope=global, in declaration order. -/
theorem C7_inspect_network_query :
    inspectNetworkRequest InspectNetworkOptions.into_array_ref
        "my_network_name" (some { verbose := true, scope := "global" }) =
      .ok { method := .get, path := "/networks/my_network_name",
            query := [("verbose", "true"), ("scope", "global")],
            body := none } := rfl

/-- Claim C8: remove_network builds a DELETE to /networks/ followed by the
name, with no query pairs and an empty body, and every response with a 2xx
status decodes to unit success whatever its body holds. -/
theorem C8_remove_network_unit_success :
    ∀ (network_name : String) (resp : HttpResponse),
      removeNetworkRequest network_name =
        .ok { method := .delete, path := "/networks/" ++ network_name,
              query := [], body := none } ∧
      (200 ≤ resp.status → resp.status ≤ 299 →
        process_into_unit resp = .ok ()) := by
  intro network_name resp
  refine ⟨rfl, fun h1 h2 => ?_⟩
  unfold process_into_unit
  rw [if_pos ⟨h1, h2⟩]

/-- Witness for C8: at name "my_network_name" and a 204 response carrying a
non-empty diagnostic body, the request is concrete and decoding yields unit
success. -/
theorem C8_remove_network_unit_success_witness :
    removeNetworkRequest "my_network_name" =
      .ok { method := .delete, path := "/networks/" ++ "my_network_name",
            query := [], body := none } ∧
    process_into_unit { status := 204, body := .str "diagnostic text" } =
      .ok () :=
  ⟨(C8_remove_network_unit_success "my_network_name"
      { status := 204, body := .str "diagnostic text" }).1,
    (C8_remove_network_unit_success "my_network_name"
      { status := 204, body := .str "diagnostic text" }).2
      (by decide) (by decide)⟩

/-- Claim C9, counterexample: two create-network option values that are
structurally equal in the sense of the claim (same fields, HashMap-valued
labels equal as unordered maps) but whose labels maps iterate in different
orders produce different request descriptors, because the body serializes
the HashMap entries in iteration order. -/
theorem C9_counterexample_hashmap_order :
    CreateNetworkOptions.structEq cfgLabelsAB cfgLabelsBA ∧
    createNetworkRequest cfgLabelsAB ≠ createNetworkRequest cfgLabelsBA :=
  ⟨⟨rfl, rfl, rfl, rfl, rfl, rfl, rfl, rfl, by decide, rfl, by decide,
      by decide⟩,
    by
      simp [cfgLabelsAB, cfgLabelsBA, createNetworkRequest, build_request,
        serialize_payload, CreateNetworkOptions.serialize, serializeStringMap,
        CreateNetworkOptions.rustDefault, IPAM.serialize, IPAM.rustDefault,
        Bind.bind, Except.bind]⟩

/-- Claim C9 (amended): request building is a pure function of its input and
therefore deterministic on identical inputs (same HashMap iteration order
included); but since HashMap entries are serialized in iteration order,
determinism does not extend to inputs merely equal as unordered maps. -/
theorem C9_amended_identical_inputs :
    ∀ (x y : CreateNetworkOptions String) (n m : String)
      (ox oy : Option (InspectNetworkOptions String)),
      (x = y → createNetworkRequest x = createNetworkRequest y) ∧
      (n = m → removeNetworkRequest n = removeNetworkRequest m) ∧
      (n = m → ox = oy →
        inspectNetworkRequest InspectNetworkOptions.into_array_ref n ox =
          inspectNetworkRequest InspectNetworkOptions.into_array_ref m oy) :=
  fun _ _ _ _ _ _ =>
    ⟨fun h => by rw [h], fun h => by rw [h], fun h h2 => by rw [h, h2]⟩

/-- Witness for C9 (amended): determinism evaluated at concrete equal
inputs. -/
theorem C9_amended_identical_inputs_witness :
    createNetworkRequest CreateNetworkOptions.rustDefault =
      createNetworkRequest CreateNetworkOptions.rustDefault ∧
    removeNetworkRequest "n" = removeNetworkRequest "n" ∧
    inspectNetworkRequest InspectNetworkOptions.into_array_ref "n" none =
      inspectNetworkRequest InspectNetworkOptions.into_array_ref "n" none :=
  ⟨(C9_amended_identical_inputs CreateNetworkOptions.rustDefault
      CreateNetworkOptions.rustDefault "n" "n" none none).1 rfl,
    (C9_amended_identical_inputs CreateNetworkOptions.rustDefault
      CreateNetworkOptions.rustDefault "n" "n" none none).2.1 rfl,
    (C9_amended_identical_inputs CreateNetworkOptions.rustDefault
      CreateNetworkOptions.rustDefault "n" "n" none none).2.2 rfl rfl⟩

/-- Claim C10: for every inspect options value, both into_array
implementations return Ok; the error branch of the declared fallible return
type is unreachable. -/
theorem C10_into_array_total :
    ∀ (o : InspectNetworkOptions String),
      (∃ q, InspectNetworkOptions.into_array_ref o = .ok q) ∧
      (∃ q, InspectNetworkOptions.into_array_string o = .ok q) :=
  fun _ => ⟨⟨_, rfl⟩, ⟨_, rfl⟩⟩

end BollardNet
